import Mathlib

/-!
Verification of the silence-fade system (src/silence_fade_test.py and
src/vts_get_token.py).

The fade engine (lines 157-211 of silence_fade_test.py) is embedded twice:
once over exact rationals (`tick`), capturing the arithmetic structure of the
loop body, and once over a model of IEEE-754 binary64 arithmetic (`fpSilentTick`),
used for the numerical claim about where the accumulated silence time first
reaches the fade-start delay (repeated addition of the double 0.1 rounds, so
100 additions fall just short of 10.0).

The protocol client (the push flow `_vts_send_eye_glow_async` /
`send_eye_glow_to_vts`, and the token flow `get_token`) is embedded as pure
functions of the server's single observable reply, returning the list of
messages sent on the connection together with the resulting error/report, the
console output, and the state of the error-logged latch.
-/

namespace SilenceFade

/-! ## Configuration constants (silence_fade_test.py lines 13-23) -/

def CHECK_INTERVAL : ℚ := 1/10

def SILENCE_THRESHOLD_DB : ℚ := -55

def FADE_START_TIME : ℚ := 10

def FADE_SPEED_OUT : ℚ := 7/1000

def FADE_IN_SPEED : ℚ := 6/10

def MIN_EYE_GLOW : ℚ := 0

def MAX_EYE_GLOW : ℚ := 1

/-! ## Silence classifier (silence_fade_test.py line 172) -/

/-- `is_silent = volume_db < SILENCE_THRESHOLD_DB`, the pure strict comparison
of the loudness sample against the threshold. -/
def is_silent (volume_db threshold : ℚ) : Bool :=
  volume_db < threshold

/-! ## Fade engine state (silence_fade_test.py lines 158-160, 175-193, 211) -/

structure FadeState where
  silence_duration : ℚ
  eye_glow : ℚ
  was_silent : Bool
deriving Repr, DecidableEq

/-- Initial state of the main loop: `silence_duration = 0.0`,
`eye_glow = MAX_EYE_GLOW`, `was_silent = False` (lines 158-160). -/
def initState : FadeState :=
  { silence_duration := 0, eye_glow := MAX_EYE_GLOW, was_silent := false }

/-- One iteration of the fade-control part of the main loop (lines 175-193
together with the `was_silent = is_silent` update at line 211), as a function
of the previous state and the current tick's silence classification. -/
def tick (s : FadeState) (silent : Bool) : FadeState :=
  if silent then
    let d := s.silence_duration + CHECK_INTERVAL
    if FADE_START_TIME ≤ d then
      let g := s.eye_glow - FADE_SPEED_OUT
      { silence_duration := d,
        eye_glow := if g < MIN_EYE_GLOW then MIN_EYE_GLOW else g,
        was_silent := true }
    else
      { silence_duration := d, eye_glow := s.eye_glow, was_silent := true }
  else
    let g0 := if s.was_silent ∧ s.eye_glow < MAX_EYE_GLOW * (9/10) then MIN_EYE_GLOW else s.eye_glow
    let g1 := g0 + FADE_IN_SPEED
    { silence_duration := 0,
      eye_glow := if MAX_EYE_GLOW < g1 then MAX_EYE_GLOW else g1,
      was_silent := false }

/-- States reachable by the main loop: the initial state, closed under one tick
with an arbitrary silence classification. -/
inductive Reachable : FadeState → Prop
  | init : Reachable initState
  | step (s : FadeState) (b : Bool) : Reachable s → Reachable (tick s b)

/-- The fade-state invariant: bounded intensity and nonnegative silence time. -/
def FadeInv (s : FadeState) : Prop :=
  MIN_EYE_GLOW ≤ s.eye_glow ∧ s.eye_glow ≤ MAX_EYE_GLOW ∧ 0 ≤ s.silence_duration

lemma tick_preserves_inv (s : FadeState) (b : Bool) (h : FadeInv s) : FadeInv (tick s b) := by
  obtain ⟨h1, h2, h3⟩ := h
  simp only [MIN_EYE_GLOW, MAX_EYE_GLOW, CHECK_INTERVAL, FADE_START_TIME, FADE_SPEED_OUT,
    FADE_IN_SPEED] at h1 h2 h3 ⊢
  cases b <;>
      simp only [tick, FadeInv, MIN_EYE_GLOW, MAX_EYE_GLOW, CHECK_INTERVAL, FADE_START_TIME,
        FADE_SPEED_OUT, FADE_IN_SPEED] <;>
      split_ifs <;>
      refine ⟨?_, ?_, ?_⟩ <;>
      simp_all <;>
      linarith

lemma reachable_inv (s : FadeState) (h : Reachable s) : FadeInv s := by
  induction h with
  | init =>
      refine ⟨?_, ?_, ?_⟩ <;> simp [initState, MIN_EYE_GLOW, MAX_EYE_GLOW]
  | step s b _ ih => exact tick_preserves_inv s b ih

/-! ## IEEE-754 binary64 model of the silence accumulation

The Python loop accumulates `silence_duration += CHECK_INTERVAL` in double
precision, so each addition rounds the exact sum to 53 significant bits.
This is what makes the comparison `silence_duration >= FADE_START_TIME`
first succeed on tick 101 rather than tick 100. -/

/-- A binary floating-point value `m * 2^e` (not necessarily normalized).
Every double arising in the accumulation stays far from overflow and from
the subnormal range, so those regimes need no modelling. -/
structure FP where
  m : Int
  e : Int
deriving Repr, DecidableEq

namespace FP

/-- Exact rational value of the floating-point number. -/
def toQ (x : FP) : ℚ :=
  if 0 ≤ x.e then (x.m : ℚ) * 2 ^ x.e.toNat else (x.m : ℚ) / 2 ^ (-x.e).toNat

/-- The two significands after aligning `x` and `y` to their common least
exponent; the values of `x` and `y` are these integers times `2^(min x.e y.e)`. -/
def align (x y : FP) : Int × Int :=
  let e := if x.e ≤ y.e then x.e else y.e
  (x.m * (2 : Int) ^ (x.e - e).toNat, y.m * (2 : Int) ^ (y.e - e).toNat)

/-- Value comparison `x ≤ y` (doubles compare by exact value). -/
def fple (x y : FP) : Bool :=
  let p := align x y
  p.1 ≤ p.2

/-- Value comparison `x < y` (doubles compare by exact value). -/
def fplt (x y : FP) : Bool :=
  let p := align x y
  p.1 < p.2

/-- Number of binary digits of `n`, by fuel recursion (128 bits of fuel cover
every significand this model meets). -/
def bitLenAux : ℕ → ℕ → ℕ
  | 0, _ => 0
  | fuel+1, n => if n = 0 then 0 else bitLenAux fuel (n / 2) + 1

def bitLen (n : ℕ) : ℕ := bitLenAux 128 n

/-- Round a nonnegative integer significand at exponent `e` to 53 bits:
round to nearest, ties to even. -/
def roundPos (n : ℕ) (e : Int) : FP :=
  let bits := bitLen n
  if bits ≤ 53 then ⟨(n : Int), e⟩
  else
    let k := bits - 53
    let q := n / 2 ^ k
    let r := n % 2 ^ k
    let half := 2 ^ (k - 1)
    let q1 := if half < r then q + 1
      else if r < half then q
      else if q % 2 = 0 then q else q + 1
    ⟨(q1 : Int), e + (k : Int)⟩

/-- Round an integer significand at exponent `e` to 53 bits. -/
def round53 (m : Int) (e : Int) : FP :=
  if m < 0 then
    let p := roundPos m.natAbs e
    ⟨-p.m, p.e⟩
  else roundPos m.toNat e

/-- binary64 addition: the exact sum, rounded to nearest-even at 53 bits. -/
def add (x y : FP) : FP :=
  let e := if x.e ≤ y.e then x.e else y.e
  let p := align x y
  round53 (p.1 + p.2) e

def neg (x : FP) : FP := ⟨-x.m, x.e⟩

/-- binary64 subtraction. -/
def sub (x y : FP) : FP := add x (neg y)

end FP

/-- The double nearest to the literal `0.1` (CHECK_INTERVAL, line 13). -/
def fpCHECK_INTERVAL : FP := ⟨3602879701896397, -55⟩

/-- The double of the literal `10.0` (FADE_START_TIME, line 17), exact. -/
def fpFADE_START_TIME : FP := ⟨10, 0⟩

/-- The double nearest to the literal `0.007` (FADE_SPEED_OUT, line 18). -/
def fpFADE_SPEED_OUT : FP := ⟨8070450532247929, -60⟩

/-- The double of the literal `0.0` (MIN_EYE_GLOW, line 22), exact. -/
def fpMIN_EYE_GLOW : FP := ⟨0, 0⟩

/-- The double of the literal `1.0` (MAX_EYE_GLOW, line 23), exact. -/
def fpMAX_EYE_GLOW : FP := ⟨1, 0⟩

structure FPFadeState where
  silence_duration : FP
  eye_glow : FP
deriving Repr, DecidableEq

/-- Lines 175-181 under binary64 arithmetic: one silent tick of the main loop
(doubles compare by their exact values). -/
def fpSilentTick (s : FPFadeState) : FPFadeState :=
  let d := FP.add s.silence_duration fpCHECK_INTERVAL
  if FP.fple fpFADE_START_TIME d then
    let g := FP.sub s.eye_glow fpFADE_SPEED_OUT
    { silence_duration := d,
      eye_glow := if FP.fplt g fpMIN_EYE_GLOW then fpMIN_EYE_GLOW else g }
  else
    { silence_duration := d, eye_glow := s.eye_glow }

/-- Initial state of the main loop (lines 158-159) under binary64. -/
def fpInit : FPFadeState := { silence_duration := ⟨0, 0⟩, eye_glow := fpMAX_EYE_GLOW }

/-! ## Protocol client model

The push flow `_vts_send_eye_glow_async` / `send_eye_glow_to_vts`
(silence_fade_test.py lines 81-150) and the token flow `get_token`
(vts_get_token.py lines 11-41) each open one connection, send requests and
read at most one reply. They are embedded as pure functions of the single
observable server reply, returning the list of messages sent on the
connection together with the escaping error (if any), the console output and
the error-logged latch. -/

/-- Requests the client can send on a connection, by `messageType`. -/
inductive VtsMsg
  | authenticationRequest (token : String)
  | parameterValueRequest (value : ℚ)
  | authenticationTokenRequest
deriving Repr, DecidableEq

/-- The `data` object of an authentication response; the `authenticated`
field may be absent (line 105 reads it with default `False`). -/
structure AuthResponseData where
  authenticated : Option Bool
deriving Repr, DecidableEq

/-- What the environment does to the push flow's connect/receive: the
connection may be refused, the single receive may time out or yield an
unparsable frame, or a parsed reply arrives (whose `data` object may be
absent). -/
inductive PushEnv
  | connectRefused
  | timeout
  | malformedResponse
  | reply (data : Option AuthResponseData)
deriving Repr, DecidableEq

/-- The exception escaping `_vts_send_eye_glow_async`, if any: a transport
or parse exception, or the `RuntimeError` of line 106. -/
inductive PushError
  | transport
  | authFailed
deriving Repr, DecidableEq

/-- `auth_response.get("data", {}).get("authenticated", False)` (line 105). -/
def authenticatedValue (data : Option AuthResponseData) : Bool :=
  match data with
  | none => false
  | some d => d.authenticated.getD false

/-- `_vts_send_eye_glow_async` (lines 81-125): connect, send the
authentication request, read one reply; raise when `authenticated` is false
or absent, otherwise send the parameter request (no further read). Returns
the messages sent before the coroutine finished and the escaping error. -/
def vts_send_eye_glow_async (token : String) (env : PushEnv) (eye_glow : ℚ) :
    List VtsMsg × Option PushError :=
  match env with
  | .connectRefused => ([], some .transport)
  | .timeout => ([.authenticationRequest token], some .transport)
  | .malformedResponse => ([.authenticationRequest token], some .transport)
  | .reply data =>
      if authenticatedValue data then
        ([.authenticationRequest token, .parameterValueRequest eye_glow], none)
      else
        ([.authenticationRequest token], some .authFailed)

/-- Everything observable about one call of `send_eye_glow_to_vts`. -/
structure SendResult where
  connection_attempted : Bool
  sent : List VtsMsg
  printed_debug : Bool
  printed_error : Bool
  error_logged : Bool
deriving Repr, DecidableEq

/-- `send_eye_glow_to_vts` (lines 128-150): print the debug line, return at
once when the token is still the placeholder, otherwise run the async push
and absorb any error, printing it only when the `_vts_error_logged` latch was
unset and setting the latch. The global latch is threaded explicitly. -/
def send_eye_glow_to_vts (token : String) (env : PushEnv) (eye_glow : ℚ)
    (error_logged : Bool) : SendResult :=
  if token = "PUT_YOUR_TOKEN_HERE" then
    { connection_attempted := false, sent := [], printed_debug := true,
      printed_error := false, error_logged := error_logged }
  else
    let r := vts_send_eye_glow_async token env eye_glow
    match r.2 with
    | none =>
        { connection_attempted := true, sent := r.1, printed_debug := true,
          printed_error := false, error_logged := error_logged }
    | some _ =>
        if error_logged then
          { connection_attempted := true, sent := r.1, printed_debug := true,
            printed_error := false, error_logged := true }
        else
          { connection_attempted := true, sent := r.1, printed_debug := true,
            printed_error := true, error_logged := true }

/-- A run of push calls, one per tick, threading the `_vts_error_logged`
latch; returns the final latch and the number of error reports printed. -/
def push_run (token : String) (envs : List PushEnv) (eye_glow : ℚ)
    (error_logged : Bool) : Bool × ℕ :=
  match envs with
  | [] => (error_logged, 0)
  | e :: rest =>
      let r := send_eye_glow_to_vts token e eye_glow error_logged
      let later := push_run token rest eye_glow r.error_logged
      (later.1, (if r.printed_error then 1 else 0) + later.2)

/-- Whether the push coroutine raised on this environment. -/
def pushFails (token : String) (env : PushEnv) (eye_glow : ℚ) : Bool :=
  (vts_send_eye_glow_async token env eye_glow).2.isSome

/-- Some `ParameterValueRequest` occurs among the sent messages. -/
def sendsParameterValue (msgs : List VtsMsg) : Prop :=
  ∃ v, VtsMsg.parameterValueRequest v ∈ msgs

/-! ### Token-acquisition flow (vts_get_token.py) -/

/-- The `data` object of the token response; the `authenticationToken` field
may be absent (line 35 reads it with default `None`). -/
structure TokenResponseData where
  authenticationToken : Option String
deriving Repr, DecidableEq

/-- What `get_token` reports to the caller after its single receive. -/
inductive TokenReport
  | tokenDisplayed (t : String)
  | tokenDenied
deriving Repr, DecidableEq

/-- `response.get("data", {}).get("authenticationToken")` (line 35). -/
def tokenField (data : Option TokenResponseData) : Option String :=
  match data with
  | none => none
  | some d => d.authenticationToken

/-- `get_token` (vts_get_token.py lines 11-41): send one
`AuthenticationTokenRequest`, read one reply, then display the token when
`if token:` is truthy (a present, non-empty string) and report denial
otherwise. Returns the messages sent and the report. -/
def get_token (data : Option TokenResponseData) : List VtsMsg × TokenReport :=
  let sent := [VtsMsg.authenticationTokenRequest]
  match tokenField data with
  | some t => if t = "" then (sent, .tokenDenied) else (sent, .tokenDisplayed t)
  | none => (sent, .tokenDenied)

/-! ## Claim theorems -/

/-- Claim C1: the fade state starts as `intensity = MAX_GLOW`,
`silence_elapsed = 0`, `was_silent = false`, and every state of the main loop
reachable by tick updates (silent or non-silent) satisfies
`MIN_GLOW ≤ intensity ≤ MAX_GLOW` and `silence_elapsed ≥ 0`. -/
theorem C1_fade_state_invariant (s : FadeState) (h : Reachable s) :
    initState.eye_glow = MAX_EYE_GLOW ∧ initState.silence_duration = 0 ∧
      initState.was_silent = false ∧
      MIN_EYE_GLOW ≤ s.eye_glow ∧ s.eye_glow ≤ MAX_EYE_GLOW ∧ 0 ≤ s.silence_duration := by
  obtain ⟨h1, h2, h3⟩ := reachable_inv s h
  exact ⟨rfl, rfl, rfl, h1, h2, h3⟩

/-- Witness for C1 at the initial state, which is reachable. -/
theorem C1_fade_state_invariant_witness :
    initState.eye_glow = MAX_EYE_GLOW ∧ initState.silence_duration = 0 ∧
      initState.was_silent = false ∧
      MIN_EYE_GLOW ≤ initState.eye_glow ∧ initState.eye_glow ≤ MAX_EYE_GLOW ∧
      0 ≤ initState.silence_duration :=
  C1_fade_state_invariant initState Reachable.init

set_option maxRecDepth 1000000 in
/-- Claim C5: with threshold −55, fade-start delay 10 s, tick 0.1 s and
fade-out rate 0.007, starting from the initial state and classifying every
tick silent, the intensity is unchanged through the first 100 silent ticks
and the 101st silent tick is the first on which it decreases; on that tick
the `>=` comparison of the accumulated silence against the delay holds for
the first time. Under the binary64 arithmetic the code runs, 100 additions of
the double 0.1 sum to just below 10.0, so tick 100 does not yet fade. -/
theorem C5_first_fade_on_tick_101 :
    (∀ n : Fin 101, ((fpSilentTick^[n.1]) fpInit).eye_glow = fpMAX_EYE_GLOW) ∧
    FP.fplt ((fpSilentTick^[101]) fpInit).eye_glow
      ((fpSilentTick^[100]) fpInit).eye_glow = true ∧
    FP.fplt ((fpSilentTick^[100]) fpInit).silence_duration fpFADE_START_TIME = true ∧
    FP.fple fpFADE_START_TIME ((fpSilentTick^[101]) fpInit).silence_duration = true := by
  decide

/-- Claim C7: the silence classifier is the pure strict comparison
`sample < threshold`; a sample exactly at the threshold is non-silent. -/
theorem C7_classifier_strict (volume_db : ℚ) :
    (is_silent volume_db SILENCE_THRESHOLD_DB = true ↔
      volume_db < SILENCE_THRESHOLD_DB) ∧
    is_silent SILENCE_THRESHOLD_DB SILENCE_THRESHOLD_DB = false := by
  constructor
  · simp [is_silent]
  · simp [is_silent]

/-- Claim C2: a silent tick adds the tick interval to the silence time, then
leaves the intensity unchanged while the accumulated silence is below the
fade-start delay and otherwise replaces it by
`max MIN_GLOW (intensity - fade_out_rate)`; within the intensity bounds the
update is non-increasing and never drops below `MIN_GLOW`. -/
theorem C2_silent_tick (s : FadeState) (h1 : MIN_EYE_GLOW ≤ s.eye_glow)
    (_h2 : s.eye_glow ≤ MAX_EYE_GLOW) :
    (tick s true).silence_duration = s.silence_duration + CHECK_INTERVAL ∧
    (s.silence_duration + CHECK_INTERVAL < FADE_START_TIME →
        (tick s true).eye_glow = s.eye_glow) ∧
    (FADE_START_TIME ≤ s.silence_duration + CHECK_INTERVAL →
        (tick s true).eye_glow = max MIN_EYE_GLOW (s.eye_glow - FADE_SPEED_OUT)) ∧
    (tick s true).eye_glow ≤ s.eye_glow ∧
    MIN_EYE_GLOW ≤ (tick s true).eye_glow := by
  by_cases hd : FADE_START_TIME ≤ s.silence_duration + CHECK_INTERVAL
  · by_cases hg : s.eye_glow - FADE_SPEED_OUT < MIN_EYE_GLOW
    · have ht : tick s true =
          { silence_duration := s.silence_duration + CHECK_INTERVAL,
            eye_glow := MIN_EYE_GLOW, was_silent := true } := by
        simp [tick, hd, hg]
      rw [ht]
      exact ⟨rfl, fun hlt => absurd hd (not_le.mpr hlt),
        fun _ => (max_eq_left hg.le).symm, h1, le_refl _⟩
    · have hge := not_lt.mp hg
      have ht : tick s true =
          { silence_duration := s.silence_duration + CHECK_INTERVAL,
            eye_glow := s.eye_glow - FADE_SPEED_OUT, was_silent := true } := by
        simp [tick, hd, hg]
      rw [ht]
      refine ⟨rfl, fun hlt => absurd hd (not_le.mpr hlt),
        fun _ => (max_eq_right hge).symm, ?_, hge⟩
      show s.eye_glow - FADE_SPEED_OUT ≤ s.eye_glow
      have : (0 : ℚ) ≤ FADE_SPEED_OUT := by norm_num [FADE_SPEED_OUT]
      linarith
  · have ht : tick s true =
        { silence_duration := s.silence_duration + CHECK_INTERVAL,
          eye_glow := s.eye_glow, was_silent := true } := by
      simp [tick, hd]
    rw [ht]
    exact ⟨rfl, fun _ => rfl, fun hge => absurd hge hd, le_refl _, h1⟩

/-- Witness for C2 at the initial state. -/
theorem C2_silent_tick_witness :
    MIN_EYE_GLOW ≤ initState.eye_glow ∧ initState.eye_glow ≤ MAX_EYE_GLOW ∧
    ((tick initState true).silence_duration =
        initState.silence_duration + CHECK_INTERVAL ∧
     (initState.silence_duration + CHECK_INTERVAL < FADE_START_TIME →
        (tick initState true).eye_glow = initState.eye_glow) ∧
     (FADE_START_TIME ≤ initState.silence_duration + CHECK_INTERVAL →
        (tick initState true).eye_glow =
          max MIN_EYE_GLOW (initState.eye_glow - FADE_SPEED_OUT)) ∧
     (tick initState true).eye_glow ≤ initState.eye_glow ∧
     MIN_EYE_GLOW ≤ (tick initState true).eye_glow) :=
  ⟨by decide, by decide, C2_silent_tick initState (by decide) (by decide)⟩

/-- Claim C3: a non-silent tick resets the silence time to 0 and fades in:
when the previous tick was silent and the intensity sits below 0.9·MAX_GLOW
it is first forced to MIN_GLOW, giving `min MAX_GLOW (MIN_GLOW + fade_in_rate)`,
and otherwise the result is `min MAX_GLOW (intensity + fade_in_rate)`; the
edge check reads the previous tick's classification, and the stored flag
becomes the current (non-silent) classification. -/
theorem C3_nonsilent_tick (s : FadeState) :
    tick s false =
      { silence_duration := 0,
        eye_glow :=
          if s.was_silent ∧ s.eye_glow < MAX_EYE_GLOW * (9/10) then
            min MAX_EYE_GLOW (MIN_EYE_GLOW + FADE_IN_SPEED)
          else
            min MAX_EYE_GLOW (s.eye_glow + FADE_IN_SPEED),
        was_silent := false } := by
  have hmin : ∀ a : ℚ,
      (if MAX_EYE_GLOW < a then MAX_EYE_GLOW else a) = min MAX_EYE_GLOW a := by
    intro a
    rcases le_or_lt a MAX_EYE_GLOW with hle | hlt
    · rw [if_neg (not_lt.mpr hle), min_eq_right hle]
    · rw [if_pos hlt, min_eq_left hlt.le]
  have expand : tick s false =
      { silence_duration := 0,
        eye_glow :=
          if MAX_EYE_GLOW <
              (if s.was_silent ∧ s.eye_glow < MAX_EYE_GLOW * (9/10) then MIN_EYE_GLOW
               else s.eye_glow) + FADE_IN_SPEED then
            MAX_EYE_GLOW
          else
            (if s.was_silent ∧ s.eye_glow < MAX_EYE_GLOW * (9/10) then MIN_EYE_GLOW
             else s.eye_glow) + FADE_IN_SPEED,
        was_silent := false } := rfl
  rw [expand]
  by_cases hc : s.was_silent ∧ s.eye_glow < MAX_EYE_GLOW * (9/10)
  · simp only [if_pos hc]
    rw [hmin]
  · simp only [if_neg hc]
    rw [hmin]

lemma tick_false_glow_lb (s : FadeState) (h1 : MIN_EYE_GLOW ≤ s.eye_glow) :
    FADE_IN_SPEED ≤ (tick s false).eye_glow := by
  simp only [tick]
  split_ifs <;>
    simp_all [MIN_EYE_GLOW, MAX_EYE_GLOW, FADE_IN_SPEED] <;>
    linarith

lemma tick_false_saturates (t : FadeState) (hws : t.was_silent = false)
    (hlb : FADE_IN_SPEED ≤ t.eye_glow) : (tick t false).eye_glow = MAX_EYE_GLOW := by
  obtain ⟨d, g, w⟩ := t
  simp only at hws hlb
  subst hws
  simp only [tick]
  split_ifs <;>
    simp_all [MIN_EYE_GLOW, MAX_EYE_GLOW, FADE_IN_SPEED] <;>
    linarith

/-- Claim C10: with the default constants (`MIN_GLOW = 0`, `MAX_GLOW = 1`,
`fade_in_rate = 0.6`), two consecutive non-silent ticks from any reachable
state saturate the intensity at exactly `MAX_GLOW`: the second tick can never
trigger the flash reset because `was_silent` is false after the first one. -/
theorem C10_two_nonsilent_ticks_saturate (s : FadeState) (h : Reachable s) :
    (tick (tick s false) false).eye_glow = MAX_EYE_GLOW ∧
    (tick s false).was_silent = false := by
  obtain ⟨h1, _h2, _h3⟩ := reachable_inv s h
  exact ⟨tick_false_saturates (tick s false) rfl (tick_false_glow_lb s h1), rfl⟩

/-- Witness for C10 at the initial state, which is reachable. -/
theorem C10_two_nonsilent_ticks_saturate_witness :
    (tick (tick initState false) false).eye_glow = MAX_EYE_GLOW ∧
    (tick initState false).was_silent = false :=
  C10_two_nonsilent_ticks_saturate initState Reachable.init

/-- Claim C9: while the configured token is still the placeholder
`"PUT_YOUR_TOKEN_HERE"`, `send_eye_glow_to_vts` only prints the debug line:
for every intensity, environment and latch state it attempts no connection,
sends nothing, raises nothing, prints no error and leaves the
`_vts_error_logged` latch unchanged. -/
theorem C9_placeholder_token_noop (token : String) (env : PushEnv) (eye_glow : ℚ)
    (logged : Bool) (h : token = "PUT_YOUR_TOKEN_HERE") :
    send_eye_glow_to_vts token env eye_glow logged =
      { connection_attempted := false, sent := [], printed_debug := true,
        printed_error := false, error_logged := logged } := by
  subst h
  simp [send_eye_glow_to_vts]

/-- Witness for C9 with the placeholder token, a failing environment and the
latch set. -/
theorem C9_placeholder_token_noop_witness :
    send_eye_glow_to_vts "PUT_YOUR_TOKEN_HERE" PushEnv.connectRefused 0 true =
      { connection_attempted := false, sent := [], printed_debug := true,
        printed_error := false, error_logged := true } :=
  C9_placeholder_token_noop "PUT_YOUR_TOKEN_HERE" PushEnv.connectRefused 0 true rfl

/-- Claim C4: in the push flow, a reply whose `data.authenticated` is false
or absent makes the session fail with the authentication error and no
`ParameterValueRequest` is sent; conversely a `ParameterValueRequest` is sent
only when the reply carried `data.authenticated = true`. -/
theorem C4_auth_gates_parameter_request (token : String) (eye_glow : ℚ)
    (env : PushEnv) :
    (∀ data : Option AuthResponseData, env = PushEnv.reply data →
        authenticatedValue data = false →
        (vts_send_eye_glow_async token env eye_glow).2 = some PushError.authFailed ∧
        ¬ sendsParameterValue (vts_send_eye_glow_async token env eye_glow).1) ∧
    (sendsParameterValue (vts_send_eye_glow_async token env eye_glow).1 →
        ∃ data, env = PushEnv.reply data ∧ authenticatedValue data = true) := by
  constructor
  · rintro data rfl hfalse
    constructor
    · simp [vts_send_eye_glow_async, hfalse]
    · simp [vts_send_eye_glow_async, hfalse, sendsParameterValue]
  · intro hsends
    cases env with
    | connectRefused =>
        exact absurd hsends (by simp [vts_send_eye_glow_async, sendsParameterValue])
    | timeout =>
        exact absurd hsends (by simp [vts_send_eye_glow_async, sendsParameterValue])
    | malformedResponse =>
        exact absurd hsends (by simp [vts_send_eye_glow_async, sendsParameterValue])
    | reply data =>
        by_cases hd : authenticatedValue data
        · exact ⟨data, rfl, hd⟩
        · exact absurd hsends
            (by simp_all [vts_send_eye_glow_async, sendsParameterValue])

/-- Witness for C4: a reply whose `data` object is absent aborts with the
authentication error and sends no `ParameterValueRequest`. -/
theorem C4_auth_gates_parameter_request_witness :
    (vts_send_eye_glow_async "tok" (PushEnv.reply none) 0).2 =
      some PushError.authFailed ∧
    ¬ sendsParameterValue (vts_send_eye_glow_async "tok" (PushEnv.reply none) 0).1 :=
  (C4_auth_gates_parameter_request "tok" 0 (PushEnv.reply none)).1 none rfl rfl

lemma push_run_latched (token : String) (envs : List PushEnv) (eye_glow : ℚ)
    (h : token ≠ "PUT_YOUR_TOKEN_HERE") :
    (push_run token envs eye_glow true).1 = true ∧
    (push_run token envs eye_glow true).2 = 0 := by
  induction envs with
  | nil => exact ⟨rfl, rfl⟩
  | cons e rest ih =>
      have hsend : (send_eye_glow_to_vts token e eye_glow true).error_logged = true ∧
          (send_eye_glow_to_vts token e eye_glow true).printed_error = false := by
        simp only [send_eye_glow_to_vts, if_neg h]
        cases hv : (vts_send_eye_glow_async token e eye_glow).2 <;> simp
      simp only [push_run, hsend.1, hsend.2, if_neg Bool.false_ne_true]
      simpa using ih

/-- Claim C6: for every intensity and every push failure (transport error,
timeout, malformed response or authentication failure) the call returns
normally — in this model `send_eye_glow_to_vts` is a total function whose
result carries no escaping error — the error is printed exactly when the
`_vts_error_logged` latch was still unset (and the latch is then set), so a
whole run prints the failure message at most once: exactly once when any
tick's push fails, never otherwise. -/
theorem C6_push_errors_absorbed_logged_once (token : String) (eye_glow : ℚ)
    (envs : List PushEnv) (h : token ≠ "PUT_YOUR_TOKEN_HERE") :
    (∀ env logged,
        (send_eye_glow_to_vts token env eye_glow logged).printed_error =
          (!logged && pushFails token env eye_glow) ∧
        (send_eye_glow_to_vts token env eye_glow logged).error_logged =
          (logged || pushFails token env eye_glow)) ∧
    (push_run token envs eye_glow false).2 =
      (if envs.any (fun e => pushFails token e eye_glow) then 1 else 0) := by
  have hone : ∀ env logged,
      (send_eye_glow_to_vts token env eye_glow logged).printed_error =
        (!logged && pushFails token env eye_glow) ∧
      (send_eye_glow_to_vts token env eye_glow logged).error_logged =
        (logged || pushFails token env eye_glow) := by
    intro env logged
    simp only [send_eye_glow_to_vts, if_neg h, pushFails]
    cases hv : (vts_send_eye_glow_async token env eye_glow).2 <;>
      cases logged <;> simp [hv]
  refine ⟨hone, ?_⟩
  induction envs with
  | nil => simp [push_run]
  | cons e rest ih =>
      by_cases hf : pushFails token e eye_glow = true
      · have hp : (send_eye_glow_to_vts token e eye_glow false).printed_error = true := by
          rw [(hone e false).1, hf]
          rfl
        have hl : (send_eye_glow_to_vts token e eye_glow false).error_logged = true := by
          rw [(hone e false).2, hf]
          rfl
        simp only [push_run, hp, hl, List.any_cons, hf, Bool.true_or, if_pos]
        rw [(push_run_latched token rest eye_glow h).2]
      · have hf0 : pushFails token e eye_glow = false := by
          simpa using hf
        have hp : (send_eye_glow_to_vts token e eye_glow false).printed_error = false := by
          rw [(hone e false).1, hf0]
          rfl
        have hl : (send_eye_glow_to_vts token e eye_glow false).error_logged = false := by
          rw [(hone e false).2, hf0]
          rfl
        simp only [push_run, hp, hl, List.any_cons, hf0, Bool.false_or,
          if_neg Bool.false_ne_true]
        simpa using ih

/-- Witness for C6: a run of two failing ticks with a configured token prints
the error exactly once. -/
theorem C6_push_errors_absorbed_logged_once_witness :
    (push_run "tok" [PushEnv.timeout, PushEnv.connectRefused] 0 false).2 =
      (if ([PushEnv.timeout, PushEnv.connectRefused]).any
            (fun e => pushFails "tok" e 0) then 1 else 0) :=
  (C6_push_errors_absorbed_logged_once "tok" 0
    [PushEnv.timeout, PushEnv.connectRefused] (by decide)).2

/-- Counterexample to claim C8 as stated: a response whose `data` object does
contain the `authenticationToken` field, with the empty string as value, is
reported as token-denied (`if token:` is falsy on the empty string) instead
of being reported to the caller. -/
theorem C8_counterexample_empty_token :
    tokenField (some { authenticationToken := some "" }) = some "" ∧
    (get_token (some { authenticationToken := some "" })).2 =
      TokenReport.tokenDenied ∧
    TokenReport.tokenDenied ≠ TokenReport.tokenDisplayed "" := by
  decide

/-- Claim C8 (amended): the token flow sends exactly one
`AuthenticationTokenRequest` and no `ParameterValueRequest`, consumes exactly
one response, and then reports the token when the `data.authenticationToken`
field is present and non-empty, and a token-denied failure (without crashing)
when the field is absent or empty. -/
theorem C8_token_flow (data : Option TokenResponseData) :
    (get_token data).1 = [VtsMsg.authenticationTokenRequest] ∧
    (∀ t, tokenField data = some t → t ≠ "" →
        (get_token data).2 = TokenReport.tokenDisplayed t) ∧
    ((tokenField data = none ∨ tokenField data = some "") →
        (get_token data).2 = TokenReport.tokenDenied) ∧
    ¬ sendsParameterValue (get_token data).1 := by
  refine ⟨?_, ?_, ?_, ?_⟩
  · cases hv : tokenField data <;> simp [get_token, hv]
    split_ifs <;> rfl
  · intro t ht hne
    simp [get_token, ht, hne]
  · rintro (ht | ht) <;> simp [get_token, ht]
  · cases hv : tokenField data <;>
      simp [get_token, hv, sendsParameterValue] <;>
      split_ifs <;> simp

/-- Witness for C8 (amended): a present non-empty token is displayed. -/
theorem C8_token_flow_witness :
    (get_token (some { authenticationToken := some "abc" })).2 =
      TokenReport.tokenDisplayed "abc" :=
  (C8_token_flow (some { authenticationToken := some "abc" })).2.1 "abc" rfl
    (by decide)

end SilenceFade
